import Mathlib

/-!
Verification of the `usbh` embedded USB host stack (shallow embedding).

The Rust sources are embedded as pure Lean functions:
- mutation of `UsbHost<B>` becomes explicit state passing,
- calls into the `HostBus` trait become an emitted list of `BusOp` effects,
- calls into the `Driver` trait become an emitted list of `DriverCall`
  entries tagged with the driver's position in the driver slice,
- Rust panics (`panic!`, `unreachable!`, `.unwrap()`, non-exhaustive match)
  become `Option.none` results,
- machine integers become `Nat` with explicit `% 256` where `u8` wrapping
  matters.
-/

namespace Usbh

/-! ## Basic types (src/types.rs and the `usb_device` dependency)

`UsbDirection`, `Recipient` and `RequestType` come from the `usb-device`
crate, which declares them `#[repr(u8)]` with the values encoded in
`toU8` below (`UsbDirection::Out = 0x00`, `UsbDirection::In = 0x80`;
`Recipient::{Device,Interface,Endpoint,Other,Reserved} = 0..4`;
`RequestType::{Standard,Class,Vendor,Reserved} = 0..3`). -/

inductive UsbDirection
  | dOut
  | dIn
deriving DecidableEq

def UsbDirection.toU8 : UsbDirection → Nat
  | .dOut => 0x00
  | .dIn => 0x80

/-- The single bit of the direction, as placed in bit 7 of `bmRequestType`. -/
def UsbDirection.bit : UsbDirection → Nat
  | .dOut => 0
  | .dIn => 1

inductive Recipient
  | device
  | interface
  | endpoint
  | other
  | reserved
deriving DecidableEq

def Recipient.toU8 : Recipient → Nat
  | .device => 0
  | .interface => 1
  | .endpoint => 2
  | .other => 3
  | .reserved => 4

inductive RequestType
  | standard
  | classRequest
  | vendor
  | reserved
deriving DecidableEq

def RequestType.toU8 : RequestType → Nat
  | .standard => 0
  | .classRequest => 1
  | .vendor => 2
  | .reserved => 3

/-- Embeds `usb_device::control::Request` constants used by the core. -/
def Request.GET_DESCRIPTOR : Nat := 0x06
def Request.SET_ADDRESS : Nat := 0x05
def Request.SET_CONFIGURATION : Nat := 0x09

inductive ConnectionSpeed
  | low
  | full
deriving DecidableEq

inductive TransferType
  | control
  | isochronous
  | bulk
  | interrupt
deriving DecidableEq

/-- Embeds `bus::Error` from src/bus.rs. -/
inductive BusErrorKind
  | crc
  | bitStuffing
  | rxOverflow
  | rxTimeout
  | dataSequence
  | other
deriving DecidableEq

/-- Embeds `SetupPacket` from src/types.rs. Fields are byte/word payloads as `Nat`. -/
structure SetupPacket where
  request_type : Nat
  request : Nat
  value : Nat
  index : Nat
  length : Nat
deriving DecidableEq

/-- Embeds `SetupPacket::new` from src/types.rs:
`request_type: (recipient as u8) | ((request_type as u8) << 5) | (direction as u8)`. -/
def SetupPacket.new (direction : UsbDirection) (request_type : RequestType)
    (recipient : Recipient) (request : Nat) (value : Nat) (index : Nat)
    (length : Nat) : SetupPacket :=
  { request_type := recipient.toU8 ||| (request_type.toU8 <<< 5) ||| direction.toU8
    request := request
    value := value
    index := index
    length := length }

/-! ## Control transfer state machine (src/transfer.rs) -/

inductive ControlState
  | waitSetup
  | waitData
  | waitConfirm
deriving DecidableEq

inductive TransferState
  | control (direction : UsbDirection) (state : ControlState)
  | interrupt (direction : UsbDirection)
deriving DecidableEq

structure Transfer where
  length : Nat
  state : TransferState
deriving DecidableEq

/-- Operations invoked on the `HostBus` trait (src/bus.rs), recorded as a trace. -/
inductive BusOp
  | resetController
  | resetBus
  | enableSof
  | interruptOnSof (enable : Bool)
  | setRecipient (dev_addr : Option Nat) (endpoint : Nat) (transfer_type : TransferType)
  | writeSetup (setup : SetupPacket)
  | writeDataIn (length : Nat) (pid : Bool)
  | writeDataOut (data : List Nat)
  | prepareDataOut (data : List Nat)
  | writeDataOutPrepared
  | pipeContinue (pipe_ref : Nat)
  | releaseInterruptPipe (pipe_ref : Nat)
deriving DecidableEq

/-- Embeds `transfer::PollResult` from src/transfer.rs. -/
inductive TransferPollResult
  | controlInComplete (length : Nat)
  | controlOutComplete
  | interruptInComplete (length : Nat)
  | interruptOutComplete
  | cont (t : Transfer)
deriving DecidableEq

def Transfer.new_control_in (length : Nat) : Transfer :=
  { length := length, state := .control .dIn .waitSetup }

def Transfer.new_control_out (length : Nat) : Transfer :=
  { length := length, state := .control .dOut .waitSetup }

def Transfer.new_interrupt_in (length : Nat) : Transfer :=
  { length := length, state := .interrupt .dIn }

/-- Embeds `Transfer::stage_complete` from src/transfer.rs. The host argument is only
used for its bus, so the bus writes are returned as a trace. -/
def Transfer.stage_complete : Transfer → TransferPollResult × List BusOp
  | { state := .control .dIn control_state, length } =>
    match control_state with
    | .waitSetup =>
      (.cont { state := .control .dIn .waitData, length }, [BusOp.writeDataIn length true])
    | .waitData =>
      (.cont { state := .control .dIn .waitConfirm, length }, [BusOp.writeDataOut []])
    | .waitConfirm =>
      (.controlInComplete length, [])
  | { state := .control .dOut control_state, length } =>
    match control_state with
    | .waitSetup =>
      if length = 0 then
        (.cont { state := .control .dOut .waitConfirm, length }, [BusOp.writeDataIn 0 true])
      else
        (.cont { state := .control .dOut .waitData, length }, [BusOp.writeDataOutPrepared])
    | .waitData =>
      (.cont { state := .control .dOut .waitConfirm, length }, [BusOp.writeDataIn 0 true])
    | .waitConfirm =>
      (.controlOutComplete, [])
  | { state := .interrupt .dIn, length } => (.interruptInComplete length, [])
  | { state := .interrupt .dOut, .. } => (.interruptOutComplete, [])

/-- Spec table of §4.2, written from the spec's transition table
("Transitions on `TransComplete`"), for comparison with
`Transfer.stage_complete` (which is written from src/transfer.rs). -/
def spec_control_step (direction : UsbDirection) (stage : ControlState)
    (length : Nat) : TransferPollResult × List BusOp :=
  match direction, stage with
  | .dIn, .waitSetup =>
    (.cont { state := .control .dIn .waitData, length }, [BusOp.writeDataIn length true])
  | .dIn, .waitData =>
    (.cont { state := .control .dIn .waitConfirm, length }, [BusOp.writeDataOut []])
  | .dIn, .waitConfirm => (.controlInComplete length, [])
  | .dOut, .waitSetup =>
    if length = 0 then
      (.cont { state := .control .dOut .waitConfirm, length }, [BusOp.writeDataIn 0 true])
    else
      (.cont { state := .control .dOut .waitData, length }, [BusOp.writeDataOutPrepared])
  | .dOut, .waitData =>
    (.cont { state := .control .dOut .waitConfirm, length }, [BusOp.writeDataIn 0 true])
  | .dOut, .waitConfirm => (.controlOutComplete, [])

/-! ## Device address counter (src/lib.rs `UsbHost::next_address`) -/

/-- Embeds `UsbHost::next_address`, acting on the `last_address: u8` field.
Returns the new counter value paired with the address handed out
(in the source both are the same value; the handed-out address is wrapped
in `DeviceAddress(NonZeroU8)`). `wrapping_add(1)` on `u8` is `(+1) % 256`. -/
def next_address (last_address : Nat) : Nat × Nat :=
  let l := (last_address + 1) % 256
  let l := if l = 0 then l + 1 else l
  (l, l)

/-- Counter value after `n` consecutive `next_address` calls starting from a
freshly constructed host (`last_address = 0`). -/
def last_after : Nat → Nat
  | 0 => 0
  | n + 1 => (next_address (last_after n)).1

/-! ## Pipes and host state (src/lib.rs) -/

/-- Embeds `MAX_PIPES` from src/lib.rs. -/
def MAX_PIPES : Nat := 32

/-- Embeds `PipeId(u8)`: index into the pipe table. Modelled as `Fin 32`; per the
source comment in `validate_control_pipe`, a `PipeId` outside `0..MAX_PIPES`
"should not be produced and indicates a bug within UsbHost". -/
def PipeId := Fin MAX_PIPES
deriving DecidableEq

/-- Embeds `Pipe` from src/lib.rs. `ptr` is the raw buffer pointer, kept as an opaque
numeric value: the memory behind it is outside this pure model. -/
inductive Pipe
  | control (dev_addr : Nat)
  | interrupt (dev_addr : Nat) (bus_ref : Nat) (direction : UsbDirection)
      (size : Nat) (ptr : Nat)
deriving DecidableEq

def Pipe.dev_addr : Pipe → Nat
  | .control a => a
  | .interrupt a _ _ _ _ => a

/-- Embeds `enumeration::EnumerationState` from src/enumeration.rs. -/
inductive EnumerationState
  | waitForDevice
  | reset0
  | delay0 (n : Nat)
  | waitDescriptor
  | reset1
  | delay1 (speed : ConnectionSpeed) (n : Nat)
  | waitSetAddress (speed : ConnectionSpeed) (address : Nat)
  | assigned (speed : ConnectionSpeed) (address : Nat)
deriving DecidableEq

/-- Embeds `discovery::DiscoveryState` from src/discovery.rs. -/
inductive DiscoveryState
  | deviceDesc
  | configDescLen (n : Nat) (m : Nat)
  | configDesc (n : Nat) (m : Nat)
  | done
  | parseError
deriving DecidableEq

/-- Embeds `State` from src/lib.rs. -/
inductive HostState
  | enumeration (s : EnumerationState)
  | discovery (dev_addr : Nat) (s : DiscoveryState)
  | configuring (dev_addr : Nat) (config : Nat)
  | configured (dev_addr : Nat) (config : Nat)
  | dormant (dev_addr : Nat)
deriving DecidableEq

/-- Embeds `ControlError` from src/lib.rs. -/
inductive ControlError
  | wouldBlock
  | invalidPipe
deriving DecidableEq

/-- Embeds `UsbHost` from src/lib.rs. The `pipes: [Option<Pipe>; MAX_PIPES]` array is
a total function on `Fin 32`. `recv_buffer` stands for the bus-owned receive
buffer that `HostBus::received_data` / `control_buffer` expose a view of. -/
structure UsbHost where
  state : HostState
  active_transfer : Option (Option PipeId × Transfer)
  last_address : Nat
  pipes : Fin MAX_PIPES → Option Pipe
  recv_buffer : List Nat
deriving DecidableEq

/-- Embeds `UsbHost::new` (bus operations traced separately where needed). -/
def UsbHost.new : UsbHost :=
  { state := .enumeration .waitForDevice
    active_transfer := none
    last_address := 0
    pipes := fun _ => none
    recv_buffer := [] }

/-- Embeds `UsbHost::reset` from src/lib.rs. -/
def UsbHost.reset (h : UsbHost) : UsbHost × List BusOp :=
  ({ state := .enumeration .waitForDevice
     active_transfer := none
     last_address := 0
     pipes := fun _ => none
     recv_buffer := h.recv_buffer },
   [.resetController])

/-- Embeds `UsbHost::cleanup` from src/lib.rs: clear every pipe slot whose `dev_addr`
matches, then take the active transfer. -/
def UsbHost.cleanup (h : UsbHost) (addr : Nat) : UsbHost :=
  { h with
    pipes := fun i =>
      match h.pipes i with
      | some p => if p.dev_addr = addr then none else some p
      | none => none
    active_transfer := none }

/-- Embeds `UsbHost::validate_control_pipe` from src/lib.rs. -/
def UsbHost.validate_control_pipe (h : UsbHost) (dev_addr : Option Nat)
    (pipe_id : Option PipeId) : Except ControlError Unit :=
  let is_valid :=
    match dev_addr, pipe_id with
    | none, none => true
    | some _, none => true
    | none, some _ => false
    | some given_dev_addr, some pipe_id =>
      match h.pipes pipe_id with
      | some (.control dev_addr) => dev_addr = given_dev_addr
      | _ => false
  if is_valid then .ok () else .error .invalidPipe

/-- Embeds `UsbHost::control_in` from src/lib.rs. Returns the `Result` value, the
host after the call, and the trace of bus operations performed. -/
def UsbHost.control_in (h : UsbHost) (dev_addr : Option Nat)
    (pipe_id : Option PipeId) (setup : SetupPacket) :
    Except ControlError Unit × UsbHost × List BusOp :=
  match h.validate_control_pipe dev_addr pipe_id with
  | .error e => (.error e, h, [])
  | .ok _ =>
    if h.active_transfer.isSome then
      (.error .wouldBlock, h, [])
    else
      (.ok (),
       { h with active_transfer := some (pipe_id, Transfer.new_control_in setup.length) },
       [.setRecipient dev_addr 0 .control, .writeSetup setup])

/-- Embeds `UsbHost::control_out` from src/lib.rs. -/
def UsbHost.control_out (h : UsbHost) (dev_addr : Option Nat)
    (pipe_id : Option PipeId) (setup : SetupPacket) (data : List Nat) :
    Except ControlError Unit × UsbHost × List BusOp :=
  match h.validate_control_pipe dev_addr pipe_id with
  | .error e => (.error e, h, [])
  | .ok _ =>
    if h.active_transfer.isSome then
      (.error .wouldBlock, h, [])
    else
      (.ok (),
       { h with active_transfer := some (pipe_id, Transfer.new_control_out data.length) },
       [.setRecipient dev_addr 0 .control, .prepareDataOut data, .writeSetup setup])

/-- Embeds `UsbHost::get_descriptor` from src/lib.rs. -/
def UsbHost.get_descriptor (h : UsbHost) (dev_addr : Option Nat)
    (pipe_id : Option PipeId) (recipient : Recipient) (descriptor_type : Nat)
    (descriptor_index : Nat) (length : Nat) :
    Except ControlError Unit × UsbHost × List BusOp :=
  h.control_in dev_addr pipe_id
    (SetupPacket.new .dIn .standard recipient Request.GET_DESCRIPTOR
      ((descriptor_type <<< 8) ||| descriptor_index) 0 length)

/-- Embeds `UsbHost::set_address` from src/lib.rs. -/
def UsbHost.set_address (h : UsbHost) (address : Nat) :
    Except ControlError Unit × UsbHost × List BusOp :=
  h.control_out none none
    (SetupPacket.new .dOut .standard .device Request.SET_ADDRESS address 0 0) []

/-- Embeds `UsbHost::set_configuration` from src/lib.rs. -/
def UsbHost.set_configuration (h : UsbHost) (dev_addr : Nat)
    (pipe_id : Option PipeId) (configuration : Nat) :
    Except ControlError Unit × UsbHost × List BusOp :=
  h.control_out (some dev_addr) pipe_id
    (SetupPacket.new .dOut .standard .device Request.SET_CONFIGURATION
      configuration 0 0) []

/-! ## Descriptor parsing (src/descriptor.rs, `parse` submodule)

The parsers are built from nom's streaming combinators: `u8` and
`take(n)` fail with `Incomplete` when the input is too short, `verify`
fails with a recoverable `Error`. Inputs are byte lists (`Nat` values,
`< 256` for data coming off the bus). -/

inductive ParseErr
  | incomplete
  | errorKind
deriving DecidableEq

/-- nom's streaming `u8`. -/
def pU8 : List Nat → Except ParseErr (List Nat × Nat)
  | [] => .error .incomplete
  | b :: rest => .ok (rest, b)

/-- nom's streaming `take(n)`. -/
def pTake (n : Nat) (input : List Nat) : Except ParseErr (List Nat × List Nat) :=
  if n ≤ input.length then .ok (input.drop n, input.take n) else .error .incomplete

/-- nom's streaming `le_u16`. -/
def pLeU16 : List Nat → Except ParseErr (List Nat × Nat)
  | b0 :: b1 :: rest => .ok (rest, b0 + 256 * b1)
  | _ => .error .incomplete

/-- Embeds `Bcd16::is_valid` from src/types.rs. -/
def bcd_is_valid (value : Nat) : Bool :=
  (value >>> 12) % 16 < 10 && (value >>> 8) % 16 < 10 &&
  (value >>> 4) % 16 < 10 && value % 16 < 10

/-- Embeds `parse::bcd_16` from src/descriptor.rs: `verify(le_u16, is_valid)`.
The `Bcd16` payload is kept as the raw `u16` value. -/
def bcd_16 (input : List Nat) : Except ParseErr (List Nat × Nat) :=
  match pLeU16 input with
  | .ok (rest, v) => if bcd_is_valid v then .ok (rest, v) else .error .errorKind
  | .error e => .error e

/-- Embeds `Descriptor` framing from src/descriptor.rs. -/
structure Descriptor where
  length : Nat
  descriptor_type : Nat
  data : List Nat
deriving DecidableEq

def TYPE_DEVICE : Nat := 1
def TYPE_CONFIGURATION : Nat := 2
def TYPE_STRING : Nat := 3
def TYPE_INTERFACE : Nat := 4
def TYPE_ENDPOINT : Nat := 5

/-- Embeds `parse::any_descriptor` from src/descriptor.rs:
two `u8`s, then `take((length - 2) as usize)`. The `length - 2` subtraction
is on `u8`, so it wraps: `(length - 2) mod 256 = (length + 254) % 256`. -/
def any_descriptor (input : List Nat) : Except ParseErr (List Nat × Descriptor) :=
  match pU8 input with
  | .error e => .error e
  | .ok (input, length) =>
    match pU8 input with
    | .error e => .error e
    | .ok (input, descriptor_type) =>
      match pTake ((length + 254) % 256) input with
      | .error e => .error e
      | .ok (input, data) => .ok (input, { length, descriptor_type, data })

/-- Embeds `DeviceDescriptor` from src/descriptor.rs (fields as raw numbers). -/
structure DeviceDescriptor where
  usb_release : Nat
  device_class : Nat
  device_sub_class : Nat
  device_protocol : Nat
  max_packet_size : Nat
  id_vendor : Nat
  id_product : Nat
  device_release : Nat
  manufacturer_index : Nat
  product_index : Nat
  serial_number_index : Nat
  num_configurations : Nat
deriving DecidableEq

/-- Embeds `parse::device_descriptor` from src/descriptor.rs:
`tuple((bcd_16, u8, u8, u8, u8, le_u16, le_u16, bcd_16, u8, u8, u8, u8))`. -/
def device_descriptor (input : List Nat) :
    Except ParseErr (List Nat × DeviceDescriptor) := do
  let (input, usb_release) ← bcd_16 input
  let (input, device_class) ← pU8 input
  let (input, device_sub_class) ← pU8 input
  let (input, device_protocol) ← pU8 input
  let (input, max_packet_size) ← pU8 input
  let (input, id_vendor) ← pLeU16 input
  let (input, id_product) ← pLeU16 input
  let (input, device_release) ← bcd_16 input
  let (input, manufacturer_index) ← pU8 input
  let (input, product_index) ← pU8 input
  let (input, serial_number_index) ← pU8 input
  let (input, num_configurations) ← pU8 input
  .ok (input,
    { usb_release, device_class, device_sub_class, device_protocol,
      max_packet_size, id_vendor, id_product, device_release,
      manufacturer_index, product_index, serial_number_index,
      num_configurations })

/-- Embeds `parse::configuration_descriptor_length` from src/descriptor.rs. -/
def configuration_descriptor_length (input : List Nat) :
    Except ParseErr (List Nat × Nat) :=
  pLeU16 input

/-! ## Events, drivers and the enumeration machine (src/lib.rs, src/enumeration.rs) -/

/-- Embeds `bus::Event` from src/bus.rs. -/
inductive BusEvent
  | attached (speed : ConnectionSpeed)
  | detached
  | transComplete
  | stall
  | resume
  | error (e : BusErrorKind)
  | interruptPipe (bus_ref : Nat)
  | sof
deriving DecidableEq

/-- Internal `Event` from src/lib.rs. -/
inductive Event
  | none
  | attached (speed : ConnectionSpeed)
  | detached
  | controlInData (pipe : Option PipeId) (length : Nat)
  | controlOutComplete (pipe : Option PipeId)
  | stall
  | resume
  | interruptPipe (bus_ref : Nat)
  | busError (e : BusErrorKind)
  | sof
deriving DecidableEq

/-- Embeds `PollResult` from src/lib.rs. -/
inductive PollResult
  | noDevice
  | busy
  | idle
  | busError (e : BusErrorKind)
  | discoveryError (dev_addr : Nat)
deriving DecidableEq

/-- A driver, reduced to the data the orchestrator consumes from it: its
reply to the `configure` election. All other callbacks return `()` in the
source; they are recorded in the emitted `DriverCall` trace. Driver-internal
state is outside the core. -/
structure Driver where
  configure : Nat → Option Nat

/-- Calls made into the `Driver` trait (src/driver.rs), recorded as a trace
together with the index of the receiving driver. For `completed_in` /
`completed_out` the buffer content lives behind the interrupt pipe's raw
pointer and is outside this pure model; the slice length (`size`) is kept. -/
inductive DriverCall
  | attached (dev_addr : Nat) (speed : ConnectionSpeed)
  | detached (dev_addr : Nat)
  | descriptor (dev_addr : Nat) (descriptor_type : Nat) (data : List Nat)
  | configure (dev_addr : Nat)
  | configured (dev_addr : Nat) (value : Nat)
  | completedControl (dev_addr : Nat) (pipe : PipeId) (data : Option (List Nat))
  | completedIn (dev_addr : Nat) (pipe : PipeId) (size : Nat)
  | completedOut (dev_addr : Nat) (pipe : PipeId) (size : Nat)
deriving DecidableEq

/-- Fan-out `for driver in drivers { driver.f(...) }`: the same call delivered to
every driver in order, tagged with the driver's index. -/
def fanout (drivers : List Driver) (c : DriverCall) : List (Nat × DriverCall) :=
  (List.range drivers.length).map (fun i => (i, c))

/-- Embeds `RESET_0_DELAY` / `RESET_1_DELAY` from src/enumeration.rs. -/
def RESET_0_DELAY : Nat := 10
def RESET_1_DELAY : Nat := 10

/-- Embeds `enumeration::process_enumeration` from src/enumeration.rs.
`none` models a panic (the `.ok().unwrap()` calls and the `unreachable!`
on `Assigned`). -/
def process_enumeration (event : Event) (state : EnumerationState)
    (host : UsbHost) : Option (EnumerationState × UsbHost × List BusOp) :=
  match state with
  | .waitForDevice =>
    match event with
    | .attached _ => some (.reset0, host, [.resetBus])
    | _ => some (state, host, [])
  | .reset0 =>
    match event with
    | .attached _ => some (.delay0 RESET_0_DELAY, host, [.enableSof, .interruptOnSof true])
    | _ => some (state, host, [])
  | .delay0 n =>
    match event with
    | .sof =>
      if n > 0 then
        some (.delay0 (n - 1), host, [])
      else
        match host.get_descriptor none none .device TYPE_DEVICE 0 8 with
        | (.ok _, host, ops) => some (.waitDescriptor, host, ops)
        | (.error _, _, _) => none
    | .detached => some (.waitForDevice, host, [])
    | _ => some (state, host, [])
  | .waitDescriptor =>
    match event with
    | .detached => some (.waitForDevice, host, [.interruptOnSof false])
    | .controlInData _ _ => some (.reset1, host, [.resetBus])
    | _ => some (state, host, [])
  | .reset1 =>
    match event with
    | .attached speed => some (.delay1 speed RESET_1_DELAY, host, [.enableSof])
    | _ => some (state, host, [])
  | .delay1 speed n =>
    match event with
    | .sof =>
      if n > 0 then
        some (.delay1 speed (n - 1), host, [])
      else
        let address := (next_address host.last_address).2
        let host := { host with last_address := (next_address host.last_address).1 }
        match host.set_address address with
        | (.ok _, host, ops) => some (.waitSetAddress speed address, host, ops)
        | (.error _, _, _) => none
    | .detached => some (.waitForDevice, host, [.interruptOnSof false])
    | _ => some (state, host, [])
  | .waitSetAddress speed address =>
    match event with
    | .detached => some (.waitForDevice, host, [.interruptOnSof false])
    | .controlOutComplete _ => some (.assigned speed address, host, [.interruptOnSof false])
    | _ => some (state, host, [])
  | .assigned _ _ => none

/-! ## Discovery machine (src/discovery.rs) -/

/-- Embeds `host.bus.control_buffer(length)`: view of the first `length` bytes of the
bus receive buffer (same buffer that `received_data` exposes). -/
def UsbHost.control_buffer (h : UsbHost) (length : Nat) : List Nat :=
  h.recv_buffer.take length

/-- Embeds `discovery::start_discovery` from src/discovery.rs. `none` models the
`.ok().unwrap()` panic. -/
def start_discovery (dev_addr : Nat) (host : UsbHost) :
    Option (DiscoveryState × UsbHost × List BusOp) :=
  match host.get_descriptor (some dev_addr) none .device TYPE_DEVICE 0 18 with
  | (.ok _, host, ops) => some (.deviceDesc, host, ops)
  | (.error _, _, _) => none

/-- The descriptor-dispatch `loop` in the `ConfigDesc` arm of
`process_discovery`: parse descriptors one after the other, fanning each out
to all drivers, until the buffer is exhausted (`Bool` result `true`) or a
parse fails (`false`; the calls made before the failure are still returned).
`fuel` only bounds the iteration count so the recursion is structural: each
successful `any_descriptor` consumes at least the two header bytes, so
`fuel = data.length + 1` can never be exhausted. -/
def config_desc_loop (drivers : List Driver) (dev_addr : Nat) :
    Nat → List Nat → Bool × List (Nat × DriverCall)
  | 0, _ => (false, [])
  | fuel + 1, data =>
    match any_descriptor data with
    | .error _ => (false, [])
    | .ok (rest, descriptor) =>
      let calls := fanout drivers
        (.descriptor dev_addr descriptor.descriptor_type descriptor.data)
      if rest.length > 0 then
        let (r, more) := config_desc_loop drivers dev_addr fuel rest
        (r, calls ++ more)
      else
        (true, calls)

/-- Embeds `discovery::process_discovery` from src/discovery.rs. `none` models a
panic (`.ok().unwrap()`, and `unreachable!` for `Done` / `ParseError`). -/
def process_discovery (event : Event) (dev_addr : Nat) (state : DiscoveryState)
    (drivers : List Driver) (host : UsbHost) :
    Option (DiscoveryState × UsbHost × List BusOp × List (Nat × DriverCall)) :=
  match state with
  | .deviceDesc =>
    match event with
    | .controlInData _ length =>
      let data := host.control_buffer length
      match any_descriptor data with
      | .error _ => some (.parseError, host, [], [])
      | .ok (_, descriptor) =>
        let calls := fanout drivers
          (.descriptor dev_addr descriptor.descriptor_type descriptor.data)
        match device_descriptor descriptor.data with
        | .error _ => some (.parseError, host, [], calls)
        | .ok (_, dd) =>
          match host.get_descriptor (some dev_addr) none .device TYPE_CONFIGURATION 0 9 with
          | (.ok _, host, ops) =>
            some (.configDescLen 0 dd.num_configurations, host, ops, calls)
          | (.error _, _, _) => none
    | _ => some (state, host, [], [])
  | .configDescLen n m =>
    match event with
    | .controlInData _ length =>
      let data := host.control_buffer length
      match any_descriptor data with
      | .error _ => some (.parseError, host, [], [])
      | .ok (_, descriptor) =>
        match configuration_descriptor_length descriptor.data with
        | .error _ => some (.parseError, host, [], [])
        | .ok (_, total_length) =>
          match host.get_descriptor (some dev_addr) none .device TYPE_CONFIGURATION n total_length with
          | (.ok _, host, ops) => some (.configDesc n m, host, ops, [])
          | (.error _, _, _) => none
    | _ => some (state, host, [], [])
  | .configDesc n m =>
    match event with
    | .controlInData _ length =>
      let data := host.control_buffer length
      match config_desc_loop drivers dev_addr (data.length + 1) data with
      | (false, calls) => some (.parseError, host, [], calls)
      | (true, calls) =>
        if n + 1 < m then
          match host.get_descriptor (some dev_addr) none .device TYPE_CONFIGURATION (n + 1) 9 with
          | (.ok _, host, ops) => some (.configDesc (n + 1) m, host, ops, calls)
          | (.error _, _, _) => none
        else
          some (.done, host, [], calls)
    | _ => some (state, host, [], [])
  | .done => none
  | .parseError => none

/-! ## The poll loop (src/lib.rs `UsbHost::poll`) -/

/-- The `configure` election in the `Discovery`/`Done` arm of `poll`: walk the
drivers in order, the first `Some` wins and stops the walk. Returns the chosen
configuration and the trace of `configure` calls made. -/
def elect_configuration (dev_addr : Nat) : Nat → List Driver →
    Option Nat × List (Nat × DriverCall)
  | _, [] => (none, [])
  | i, d :: rest =>
    match d.configure dev_addr with
    | some config => (some config, [(i, .configure dev_addr)])
    | none =>
      let (r, calls) := elect_configuration dev_addr (i + 1) rest
      (r, (i, .configure dev_addr) :: calls)

/-- First pipe slot holding an `Interrupt` pipe with the given `bus_ref`
(the `find` in the `InterruptPipe` arm of `poll`). -/
def find_interrupt_pipe (h : UsbHost) (pipe_ref : Nat) : Option (PipeId × Pipe) :=
  ((List.finRange MAX_PIPES).find? (fun i =>
    match h.pipes i with
    | some (.interrupt _ bus_ref _ _ _) => bus_ref == pipe_ref
    | _ => false)).bind (fun i => (h.pipes i).map (fun p => (i, p)))

/-- Step 1 of `UsbHost::poll`: translate the drained bus event into the
internal `Event`, advancing the control-transfer machine on `TransComplete`.
`none` models the `panic!` when `TransComplete` arrives with no active
transfer, and the non-exhaustive `match` on interrupt-transfer completions. -/
def poll_event (h : UsbHost) (bus_event : Option BusEvent) :
    Option (UsbHost × List BusOp × Event) :=
  match bus_event with
  | .none => some (h, [], .none)
  | some .transComplete =>
    match h.active_transfer with
    | some (pipe_id, transfer) =>
      let h := { h with active_transfer := none }
      match transfer.stage_complete with
      | (.controlInComplete length, ops) => some (h, ops, .controlInData pipe_id length)
      | (.controlOutComplete, ops) => some (h, ops, .controlOutComplete pipe_id)
      | (.cont transfer, ops) =>
        some ({ h with active_transfer := some (pipe_id, transfer) }, ops, .none)
      | (.interruptInComplete _, _) => Option.none
      | (.interruptOutComplete, _) => Option.none
    | Option.none => Option.none
  | some (.attached speed) => some (h, [], .attached speed)
  | some .detached => some (h, [], .detached)
  | some .resume => some (h, [], .resume)
  | some .stall => some (h, [], .stall)
  | some (.error e) => some (h, [], .busError e)
  | some (.interruptPipe buf_ref) => some (h, [], .interruptPipe buf_ref)
  | some .sof => some (h, [], .sof)

/-- Step 2 of `UsbHost::poll`: dispatch the event through the current phase.
Returns the host, traces, and `some result` when the source `return`s early
(`DiscoveryError`, `BusError`). `none` models a panic. -/
def poll_dispatch (h : UsbHost) (event : Event) (drivers : List Driver) :
    Option (UsbHost × List BusOp × List (Nat × DriverCall) × Option PollResult) :=
  match h.state with
  | .enumeration enumeration_state =>
    match process_enumeration event enumeration_state h with
    | Option.none => Option.none
    | some (.assigned speed dev_addr, h, ops) =>
      let calls := fanout drivers (.attached dev_addr speed)
      match start_discovery dev_addr h with
      | Option.none => Option.none
      | some (discovery_state, h, ops2) =>
        some ({ h with state := .discovery dev_addr discovery_state },
              ops ++ ops2, calls, Option.none)
    | some (other, h, ops) =>
      some ({ h with state := .enumeration other }, ops, [], Option.none)
  | .discovery dev_addr discovery_state =>
    match process_discovery event dev_addr discovery_state drivers h with
    | Option.none => Option.none
    | some (.done, h, ops, calls) =>
      let (chosen_config, calls2) := elect_configuration dev_addr 0 drivers
      match chosen_config with
      | some config =>
        match h.set_configuration dev_addr Option.none config with
        | (.ok _, h, ops2) =>
          some ({ h with state := .configuring dev_addr config },
                ops ++ ops2, calls ++ calls2, Option.none)
        | (.error _, _, _) => Option.none
      | Option.none =>
        some ({ h with state := .dormant dev_addr }, ops, calls ++ calls2, Option.none)
    | some (.parseError, h, ops, calls) =>
      some ({ h with state := .dormant dev_addr }, ops, calls,
            some (.discoveryError dev_addr))
    | some (other, h, ops, calls) =>
      some ({ h with state := .discovery dev_addr other }, ops, calls, Option.none)
  | .configuring dev_addr config =>
    match event with
    | .controlOutComplete _ =>
      some ({ h with state := .configured dev_addr config }, [],
            fanout drivers (.configured dev_addr config), Option.none)
    | .detached =>
      let (h2, ops) := UsbHost.reset h
      some (h2, ops, fanout drivers (.detached dev_addr), Option.none)
    | _ => some (h, [], [], Option.none)
  | .configured dev_addr _config =>
    match event with
    | .detached =>
      some (h.cleanup dev_addr, [], fanout drivers (.detached dev_addr), Option.none)
    | .controlInData (some pipe_id) length =>
      let data := h.recv_buffer.take length
      some (h, [], fanout drivers (.completedControl dev_addr pipe_id (some data)),
            Option.none)
    | .controlInData Option.none _ => some (h, [], [], Option.none)
    | .controlOutComplete (some pipe_id) =>
      some (h, [], fanout drivers (.completedControl dev_addr pipe_id Option.none),
            Option.none)
    | .controlOutComplete Option.none => some (h, [], [], Option.none)
    | .interruptPipe pipe_ref =>
      let calls :=
        match find_interrupt_pipe h pipe_ref with
        | some (pipe_id, .interrupt dev_addr _ direction size _) =>
          match direction with
          | .dIn => fanout drivers (.completedIn dev_addr pipe_id size)
          | .dOut => fanout drivers (.completedOut dev_addr pipe_id size)
        | _ => []
      some (h, [.pipeContinue pipe_ref], calls, Option.none)
    | .busError e => some (h, [], [], some (.busError e))
    | _ => some (h, [], [], Option.none)
  | .dormant dev_addr =>
    match event with
    | .detached =>
      let (h2, ops) := UsbHost.reset h
      some (h2, ops, fanout drivers (.detached dev_addr), Option.none)
    | _ => some (h, [], [], Option.none)

/-- Embeds `UsbHost::poll` from src/lib.rs, with the drained bus event passed in
(`bus.poll()` returning `None` is `bus_event = none`). `none` models a panic. -/
def UsbHost.poll (h : UsbHost) (bus_event : Option BusEvent)
    (drivers : List Driver) :
    Option (UsbHost × List BusOp × List (Nat × DriverCall) × PollResult) :=
  match poll_event h bus_event with
  | Option.none => Option.none
  | some (h, ops, event) =>
    match poll_dispatch h event drivers with
    | Option.none => Option.none
    | some (h, ops2, calls, early) =>
      let result :=
        match early with
        | some r => r
        | Option.none =>
          match h.state with
          | .enumeration .waitForDevice => PollResult.noDevice
          | _ => if h.active_transfer.isSome then .busy else .idle
      some (h, ops ++ ops2, calls, result)

/-! ## Theorems -/

/-- Claim C4: the control-transfer state machine's step function on
`TransComplete` (`Transfer::stage_complete`) coincides with the spec's
transition table (§4.2), for both directions, all three stages and every
`remaining_length`. -/
theorem c4_stage_complete_matches_spec_table :
    ∀ (direction : UsbDirection) (stage : ControlState) (length : Nat),
      Transfer.stage_complete { length := length, state := .control direction stage } =
        spec_control_step direction stage length := by
  intro direction stage length
  cases direction <;> cases stage <;> rfl

/-- Claim C8: for every combination of recipient, request type and direction,
the `bmRequestType` byte built by `SetupPacket::new` equals
`recipient ||| (type <<< 5) ||| (direction_bit <<< 7)`: recipient in the low
five bits, type in bits 5-6, direction in bit 7. -/
theorem c8_setup_packet_request_type_byte :
    ∀ (direction : UsbDirection) (request_type : RequestType)
      (recipient : Recipient) (request value index length : Nat),
      (SetupPacket.new direction request_type recipient request value index
          length).request_type =
        recipient.toU8 ||| (request_type.toU8 <<< 5) ||| (direction.bit <<< 7) := by
  intro direction request_type recipient request value index length
  cases direction <;> cases request_type <;> cases recipient <;> rfl

set_option maxRecDepth 8000 in
/-- Claim C9, counterexample: starting from a fresh host (`last_address = 0`),
after 254 consecutive address assignments the next `next_address` call yields
255 — not 1 as the claim states (the wrap to 1 needs 255 prior assignments). -/
theorem c9_wrap_after_254_counterexample :
    (next_address (last_after 254)).2 = 255 ∧ (next_address (last_after 254)).2 ≠ 1 := by
  decide

set_option maxRecDepth 8000 in
/-- Claim C9, amended: after 255 consecutive address assignments without a
reset the next `next_address` call skips 0 and yields address 1 again, and
`next_address` never returns 0 from any counter value. -/
theorem c9_address_wrap_skips_zero :
    (next_address (last_after 255)).2 = 1 ∧
    ∀ last_address, (next_address last_address).2 ≠ 0 := by
  refine ⟨by decide, ?_⟩
  intro last_address
  unfold next_address
  by_cases h : (last_address + 1) % 256 = 0 <;> simp [h]

/-- Claim C6: `validate_control_pipe` decides validity exactly as the spec's
four-case table: `(None, None)` and `(Some, None)` are valid, `(None, Some)`
is `InvalidPipe`, and `(Some a, Some p)` is valid if and only if slot `p`
holds a `Control` pipe whose `dev_addr` equals `a`. -/
theorem c6_validate_control_pipe_table :
    ∀ (h : UsbHost) (a : Nat) (p : PipeId),
      h.validate_control_pipe none none = .ok () ∧
      h.validate_control_pipe (some a) none = .ok () ∧
      h.validate_control_pipe none (some p) = .error .invalidPipe ∧
      (h.validate_control_pipe (some a) (some p) = .ok () ↔
        h.pipes p = some (.control a)) := by
  intro h a p
  refine ⟨rfl, rfl, rfl, ?_⟩
  unfold UsbHost.validate_control_pipe
  rcases hp : h.pipes p with _ | pipe
  · simp [hp]
  · cases pipe <;> simp [hp]

/-- Claim C7: `UsbHost::poll` is not total: if the bus returns a
`TransComplete` event while `ActiveTransfer` is `None`, `poll` panics
(modelled as `Option.none`), for every host state and driver list. -/
theorem c7_poll_panics_on_spurious_transcomplete :
    ∀ (h : UsbHost) (drivers : List Driver),
      h.active_transfer = none →
      h.poll (some .transComplete) drivers = none := by
  intro h drivers ha
  simp [UsbHost.poll, poll_event, ha]

/-- Witness for C7: a freshly constructed host (no active transfer) polled
with `TransComplete` panics. -/
theorem c7_witness : UsbHost.new.poll (some .transComplete) [] = none :=
  c7_poll_panics_on_spurious_transcomplete UsbHost.new [] rfl

/-- Claim C10: `any_descriptor` computes the data length as `length - 2` on
the `u8` length byte without a guard. With a length byte `b ≥ 2` (and enough
input) the framing law holds: the data slice is exactly `b - 2` bytes and the
remainder follows it. With a length byte `b < 2` the subtraction underflows
to `b + 254`: the parser demands at least that many data bytes (reporting
`Incomplete` on anything shorter), and any successful parse carries
`b + 254` data bytes — never the spec's `b - 2`. -/
theorem c10_any_descriptor_framing :
    ∀ (b descriptor_type : Nat) (rest : List Nat),
      (2 ≤ b → b ≤ 255 → b - 2 ≤ rest.length →
        any_descriptor (b :: descriptor_type :: rest) =
          .ok (rest.drop (b - 2),
               { length := b, descriptor_type := descriptor_type,
                 data := rest.take (b - 2) }) ∧
        (rest.take (b - 2)).length = b - 2) ∧
      (b < 2 → rest.length < b + 254 →
        any_descriptor (b :: descriptor_type :: rest) = .error .incomplete) ∧
      (b < 2 → ∀ leftover d,
        any_descriptor (b :: descriptor_type :: rest) = .ok (leftover, d) →
        d.data.length = b + 254) := by
  intro b descriptor_type rest
  refine ⟨?_, ?_, ?_⟩
  · intro h2 h255 hlen
    have hmod : (b + 254) % 256 = b - 2 := by omega
    constructor
    · simp [any_descriptor, pU8, pTake, hmod, hlen]
    · simp [List.length_take]
      omega
  · intro hb hlen
    have hmod : (b + 254) % 256 = b + 254 := by omega
    have : ¬ ((b + 254) % 256 ≤ rest.length) := by omega
    simp [any_descriptor, pU8, pTake, this]
  · intro hb leftover d hok
    have hmod : (b + 254) % 256 = b + 254 := by omega
    by_cases hle : (b + 254) % 256 ≤ rest.length
    · simp [any_descriptor, pU8, pTake, hle] at hok
      have hd : d.data = rest.take ((b + 254) % 256) := by
        rw [← hok.2]
      rw [hd]
      simp [List.length_take]
      omega
    · simp [any_descriptor, pU8, pTake, hle] at hok

/-- Witness for C10: the framing part at the concrete buffer
`[8, 7, 6, 5, 4, 3, 2, 1, 0]` (the crate's own unit-test vector) yields a
6-byte data slice and remainder `[0]`, and the underflow part at the buffer
`[0, 3, 1, 2, 3]` (length byte 0) reports `Incomplete`. -/
theorem c10_witness :
    any_descriptor [8, 7, 6, 5, 4, 3, 2, 1, 0] =
      .ok ([0], { length := 8, descriptor_type := 7, data := [6, 5, 4, 3, 2, 1] }) ∧
    any_descriptor [0, 3, 1, 2, 3] = .error .incomplete := by
  constructor
  · exact ((c10_any_descriptor_framing 8 7 [6, 5, 4, 3, 2, 1, 0]).1
      (by decide) (by decide) (by decide)).1
  · exact (c10_any_descriptor_framing 0 3 [1, 2, 3]).2.1 (by decide) (by decide)

/-- The error a control-transfer submission yields while another transfer is
active: pipe validation runs first, so an invalid `(dev_addr, pipe_id)` pair
yields `InvalidPipe`; a valid pair yields `WouldBlock`. -/
def submission_error_while_active (h : UsbHost) (dev_addr : Option Nat)
    (pipe_id : Option PipeId) : ControlError :=
  match h.validate_control_pipe dev_addr pipe_id with
  | .ok _ => .wouldBlock
  | .error e => e

theorem control_in_while_active (h : UsbHost) (dev_addr : Option Nat)
    (pipe_id : Option PipeId) (setup : SetupPacket)
    (ha : h.active_transfer.isSome = true) :
    h.control_in dev_addr pipe_id setup =
      (.error (submission_error_while_active h dev_addr pipe_id), h, []) := by
  unfold UsbHost.control_in submission_error_while_active
  cases hv : h.validate_control_pipe dev_addr pipe_id <;> simp [ha]

theorem control_out_while_active (h : UsbHost) (dev_addr : Option Nat)
    (pipe_id : Option PipeId) (setup : SetupPacket) (data : List Nat)
    (ha : h.active_transfer.isSome = true) :
    h.control_out dev_addr pipe_id setup data =
      (.error (submission_error_while_active h dev_addr pipe_id), h, []) := by
  unfold UsbHost.control_out submission_error_while_active
  cases hv : h.validate_control_pipe dev_addr pipe_id <;> simp [ha]

/-- A host sitting in the configured phase with a control-IN transfer in
flight and an empty pipe table. -/
def hostBusy : UsbHost :=
  { state := .configured 1 1
    active_transfer := some (none, Transfer.new_control_in 8)
    last_address := 1
    pipes := fun _ => none
    recv_buffer := [] }

/-- Claim C5, counterexample: with a transfer in flight, `control_in` called
with `(None, Some(pipe))` returns `Err(InvalidPipe)` — not `Err(WouldBlock)`
as the claim states — because pipe validation runs before the busy check. -/
theorem c5_wouldblock_counterexample :
    hostBusy.active_transfer.isSome = true ∧
    hostBusy.control_in none (some ⟨0, by decide⟩)
        (SetupPacket.new .dIn .standard .device Request.GET_DESCRIPTOR 0 0 0) =
      (.error .invalidPipe, hostBusy, []) ∧
    ControlError.invalidPipe ≠ ControlError.wouldBlock := by
  refine ⟨rfl, rfl, by decide⟩

/-- Claim C5, amended: every `control_in` / `control_out` call (and the
wrappers `get_descriptor`, `set_address`, `set_configuration`) made while
`ActiveTransfer` is `Some` fails and changes nothing — the host (active
transfer and pipe table) keeps its value and no bus operation is performed.
The error is `WouldBlock` whenever the `(dev_addr, pipe_id)` pair passes
control-pipe validation (in particular for all internal uses), and
`InvalidPipe` when validation rejects it. -/
theorem c5_submission_while_active_rejected :
    ∀ (h : UsbHost) (dev_addr : Option Nat) (pipe_id : Option PipeId)
      (setup : SetupPacket) (data : List Nat) (recipient : Recipient)
      (descriptor_type descriptor_index length address configuration : Nat),
      h.active_transfer.isSome = true →
      h.control_in dev_addr pipe_id setup =
        (.error (submission_error_while_active h dev_addr pipe_id), h, []) ∧
      h.control_out dev_addr pipe_id setup data =
        (.error (submission_error_while_active h dev_addr pipe_id), h, []) ∧
      h.get_descriptor dev_addr pipe_id recipient descriptor_type
          descriptor_index length =
        (.error (submission_error_while_active h dev_addr pipe_id), h, []) ∧
      h.set_address address = (.error .wouldBlock, h, []) ∧
      h.set_configuration address pipe_id configuration =
        (.error (submission_error_while_active h (some address) pipe_id), h, []) := by
  intro h dev_addr pipe_id setup data recipient descriptor_type descriptor_index
    length address configuration ha
  refine ⟨control_in_while_active h dev_addr pipe_id _ ha,
          control_out_while_active h dev_addr pipe_id _ data ha,
          control_in_while_active h dev_addr pipe_id _ ha,
          ?_, control_out_while_active h (some address) pipe_id _ [] ha⟩
  have := control_out_while_active h none none
    (SetupPacket.new .dOut .standard .device Request.SET_ADDRESS address 0 0) [] ha
  simpa [UsbHost.set_address, submission_error_while_active,
    UsbHost.validate_control_pipe] using this

/-- Witness for the amended C5: at the concrete busy host, a valid
`(Some 1, None)` submission gets `WouldBlock`, with the host returned
unchanged and no bus operations. -/
theorem c5_witness :
    hostBusy.control_in (some 1) none
        (SetupPacket.new .dIn .standard .device Request.GET_DESCRIPTOR 0 0 18) =
      (.error .wouldBlock, hostBusy, []) :=
  (c5_submission_while_active_rejected hostBusy (some 1) none
    (SetupPacket.new .dIn .standard .device Request.GET_DESCRIPTOR 0 0 18)
    [] .device 0 0 0 0 0 rfl).1

/-- Two drivers that decline every `configure` election. -/
def driversTwo : List Driver :=
  [{ configure := fun _ => none }, { configure := fun _ => none }]

/-- A configured host for device address 1: a control pipe and an interrupt
pipe for address 1, a control pipe left over for address 2, and a control
transfer in flight. -/
def hostConfigured : UsbHost :=
  { state := .configured 1 1
    active_transfer := some (some ⟨0, by decide⟩, Transfer.new_control_in 8)
    last_address := 2
    pipes := fun i =>
      if i.val = 0 then some (.control 1)
      else if i.val = 1 then some (.interrupt 1 5 .dIn 8 0)
      else if i.val = 2 then some (.control 2)
      else none
    recv_buffer := [] }

/-- Claim C1: draining `Detached` in the Configured phase calls `detached` on
every driver, clears exactly the pipe slots whose `dev_addr` is the detached
device's address, and drops the active transfer — but the host state does NOT
return to `Enumeration(WaitForDevice)`: it stays `Configured`, and the poll
reports `Idle` rather than `NoDevice`. -/
theorem c1_configured_detach_keeps_state :
    (hostConfigured.poll (some .detached) driversTwo).map (fun r => r.1.state) =
      some (.configured 1 1) ∧
    (hostConfigured.poll (some .detached) driversTwo).map
        (fun r => r.1.active_transfer) = some none ∧
    (∀ i : Fin MAX_PIPES,
      (hostConfigured.poll (some .detached) driversTwo).map (fun r => r.1.pipes i) =
        some (if i.val = 2 then some (.control 2) else none)) ∧
    (hostConfigured.poll (some .detached) driversTwo).map (fun r => r.2.1) =
      some [] ∧
    (hostConfigured.poll (some .detached) driversTwo).map (fun r => r.2.2.1) =
      some [(0, .detached 1), (1, .detached 1)] ∧
    (hostConfigured.poll (some .detached) driversTwo).map (fun r => r.2.2.2) =
      some .idle ∧
    HostState.configured 1 1 ≠ HostState.enumeration .waitForDevice := by
  refine ⟨rfl, rfl, ?_, rfl, rfl, rfl, by intro hc; cases hc⟩
  intro i
  fin_cases i <;> rfl

/-- Claim C2, counterexample: with a control transfer in flight in the
Configured phase, draining a bus `Error` (or a `Stall`) leaves the host —
including `ActiveTransfer` — completely unchanged; the transfer is not
cancelled, refuting "ActiveTransfer becomes None". -/
theorem c2_error_does_not_cancel_counterexample :
    (hostBusy.poll (some (.error .crc)) driversTwo).map
        (fun r => r.1.active_transfer) =
      some (some (none, Transfer.new_control_in 8)) ∧
    (hostBusy.poll (some (.error .crc)) driversTwo).map (fun r => r.2.2.2) =
      some (.busError .crc) ∧
    (hostBusy.poll (some .stall) driversTwo).map (fun r => r.1.active_transfer) =
      some (some (none, Transfer.new_control_in 8)) ∧
    some (none, Transfer.new_control_in 8) ≠
      (none : Option (Option PipeId × Transfer)) := by
  refine ⟨rfl, rfl, rfl, by intro hc; cases hc⟩

/-- States in which `poll` cannot hit an `unreachable!` arm: the stored host
state is never `Enumeration(Assigned)` nor `Discovery(_, Done | ParseError)`
(those are consumed within the `poll` call that produces them). -/
def no_panic_state : HostState → Bool
  | .enumeration (.assigned _ _) => false
  | .discovery _ .done => false
  | .discovery _ .parseError => false
  | _ => true

/-- Claim C2, amended: draining a `Stall` or bus `Error` event does NOT
cancel the in-flight control transfer — `ActiveTransfer` keeps its value in
every phase — and in the Configured phase the `Error` case returns
`PollResult::BusError` with the error kind, leaving the host unchanged. -/
theorem c2_stall_error_keep_active_transfer :
    ∀ (h : UsbHost) (drivers : List Driver) (e : BusErrorKind),
      no_panic_state h.state = true →
      h.active_transfer.isSome = true →
      ((h.poll (some .stall) drivers).map (fun r => r.1.active_transfer) =
        some h.active_transfer) ∧
      ((h.poll (some (.error e)) drivers).map (fun r => r.1.active_transfer) =
        some h.active_transfer) ∧
      (∀ dev_addr config, h.state = .configured dev_addr config →
        h.poll (some (.error e)) drivers = some (h, [], [], .busError e)) := by
  intro h drivers e hnp ha
  obtain ⟨st, tr, la, pi, rb⟩ := h
  cases st with
  | enumeration es =>
    cases es <;>
      simp_all [UsbHost.poll, poll_event, poll_dispatch, process_enumeration,
        no_panic_state]
  | discovery a ds =>
    cases ds <;>
      simp_all [UsbHost.poll, poll_event, poll_dispatch, process_discovery,
        no_panic_state]
  | configuring a c =>
    simp_all [UsbHost.poll, poll_event, poll_dispatch]
  | configured a c =>
    simp_all [UsbHost.poll, poll_event, poll_dispatch]
  | dormant a =>
    simp_all [UsbHost.poll, poll_event, poll_dispatch]

/-- Witness for the amended C2: at the concrete busy host, both `Stall` and
`Error` leave the active transfer in place, and `Error` surfaces as
`PollResult::BusError`. -/
theorem c2_witness :
    ((hostBusy.poll (some .stall) driversTwo).map (fun r => r.1.active_transfer) =
      some hostBusy.active_transfer) ∧
    hostBusy.poll (some (.error .rxTimeout)) driversTwo =
      some (hostBusy, [], [], .busError .rxTimeout) := by
  refine ⟨(c2_stall_error_keep_active_transfer hostBusy driversTwo .rxTimeout rfl rfl).1,
          (c2_stall_error_keep_active_transfer hostBusy driversTwo .rxTimeout rfl rfl).2.2
            1 1 rfl⟩

/-- A host in the Discovery phase, about to process the 9-byte configuration
header of configuration 0 of 2, sitting in state `ConfigDesc(0, 2)` with the
header bytes in the receive buffer. -/
def hostDiscovery : UsbHost :=
  { state := .discovery 1 (.configDesc 0 2)
    active_transfer := none
    last_address := 1
    pipes := fun _ => none
    recv_buffer := [9, 2, 25, 0, 1, 1, 0, 128, 50] }

/-- Claim C3: in state `ConfigDesc(n, M)` with `n+1 < M`, after dispatching
the decoded descriptors the machine does submit
`GET_DESCRIPTOR(configuration, index n+1, length 9)` — but it transitions to
`ConfigDesc(n+1, M)`, not to `ConfigDescLen(n+1, M)` as the spec states. -/
theorem c3_next_config_header_state :
    (process_discovery (.controlInData none 9) 1 (.configDesc 0 2) driversTwo
        hostDiscovery).map (fun r => r.1) = some (.configDesc 1 2) ∧
    (process_discovery (.controlInData none 9) 1 (.configDesc 0 2) driversTwo
        hostDiscovery).map (fun r => r.2.1.active_transfer) =
      some (some (none, Transfer.new_control_in 9)) ∧
    (process_discovery (.controlInData none 9) 1 (.configDesc 0 2) driversTwo
        hostDiscovery).map (fun r => r.2.2.1) =
      some [.setRecipient (some 1) 0 .control,
            .writeSetup (SetupPacket.new .dIn .standard .device
              Request.GET_DESCRIPTOR ((TYPE_CONFIGURATION <<< 8) ||| 1) 0 9)] ∧
    (process_discovery (.controlInData none 9) 1 (.configDesc 0 2) driversTwo
        hostDiscovery).map (fun r => r.2.2.2) =
      some [(0, .descriptor 1 2 [25, 0, 1, 1, 0, 128, 50]),
            (1, .descriptor 1 2 [25, 0, 1, 1, 0, 128, 50])] ∧
    DiscoveryState.configDesc 1 2 ≠ DiscoveryState.configDescLen 1 2 := by
  refine ⟨rfl, rfl, rfl, rfl, by intro hc; cases hc⟩

end Usbh
